import Mathlib

/-!
Shallow embedding of the Maxillocare backend's AI healing-image analysis
pipeline (`routers/ai_analysis.py` and `services/gemini_service.py`),
together with theorems settling the specification claims about it.

Modelling conventions:
* Python floats are modelled as `ℚ` (the values that actually arise are
  decimal literals and arithmetic on them; no NaN/Infinity is exercised).
* Machine-level randomness (`random.uniform`, `random.choice`) is modelled by
  an explicit `Rng` record carrying the raw draws.
* `json.loads` (a stdlib collaborator) is a parameter
  `loads : String → Option Json`; `none` models `json.JSONDecodeError`.
* Database rows are records, the SQLAlchemy session is explicit state
  passing on a `DB` value; an uncommitted session that dies with an
  exception is rolled back, i.e. the endpoint returns the unchanged `DB`.
* Uncaught Python exceptions are modelled as `Except` error values.
-/

/-- Python exception kinds that the embedded code can raise. -/
inductive PyExc where
  | jsonDecodeError
  | indexError
  | valueError
  | typeError
  | attributeError
  | fileNotFoundError
  deriving DecidableEq, Repr

/-- Parsed JSON values, as produced by `json.loads`.  An `obj` represents the
resulting Python dict (keys already de-duplicated by the loader). -/
inductive Json where
  | null : Json
  | bool : Bool → Json
  | num : ℚ → Json
  | str : String → Json
  | arr : List Json → Json
  | obj : List (String × Json) → Json

/-- The raw draws consumed by one call of `mock_ai_analysis`:
`u` is the unit-interval draw behind `random.uniform`, `k` the raw index
draw behind `random.choice`. -/
structure Rng where
  u : ℚ
  k : Nat
  deriving DecidableEq

/-- `random.uniform a b`: an affine map of the unit draw into `[a, b]`. -/
def random_uniform (a b : ℚ) (r : Rng) : ℚ := a + (b - a) * r.u

/-- `random.choice xs`: selects the element indexed by the raw draw.
(The Python original raises on an empty sequence; every use site in the
source passes a fixed non-empty list.) -/
def random_choice (xs : List String) (r : Rng) : String :=
  xs.getD (r.k % xs.length) ""

/-- Round-half-to-even on rationals, the rounding mode of Python `round`. -/
def round_half_even (x : ℚ) : ℤ :=
  let f := ⌊x⌋
  let frac := x - f
  if frac < 1/2 then f
  else if 1/2 < frac then f + 1
  else if f % 2 = 0 then f else f + 1

/-- Python `round(x, 1)`: round to one decimal digit, ties to even. -/
def py_round1 (x : ℚ) : ℚ := (round_half_even (10 * x) : ℚ) / 10

/-- Bounds for the banker's rounding: it moves a value by at most `1/2`. -/
theorem round_half_even_bounds (x : ℚ) :
    x - 1/2 ≤ (round_half_even x : ℚ) ∧ (round_half_even x : ℚ) ≤ x + 1/2 := by
  have hfl : (⌊x⌋ : ℚ) ≤ x := Int.floor_le x
  have hfu : x < (⌊x⌋ : ℚ) + 1 := Int.lt_floor_add_one x
  unfold round_half_even
  by_cases h1 : x - (⌊x⌋ : ℚ) < 1/2
  · simp only [h1, if_true]
    constructor <;> push_cast <;> linarith
  · by_cases h2 : (1:ℚ)/2 < x - (⌊x⌋ : ℚ)
    · simp only [h1, h2, if_false, if_true]
      constructor <;> push_cast <;> linarith
    · by_cases h3 : ⌊x⌋ % 2 = 0
      · simp only [h1, h2, h3, if_false, if_true]
        constructor <;> push_cast <;> linarith
      · simp only [h1, h2, h3, if_false]
        constructor <;> push_cast <;> linarith

/-- `py_round1` keeps a value inside `[60, 95]` and lands on the
one-decimal grid. -/
theorem py_round1_range (x : ℚ) (hl : 60 ≤ x) (hu : x ≤ 95) :
    60 ≤ py_round1 x ∧ py_round1 x ≤ 95 ∧ ∃ n : ℤ, py_round1 x = (n : ℚ) / 10 := by
  obtain ⟨hb1, hb2⟩ := round_half_even_bounds (10 * x)
  have hlo : (599 : ℤ) < round_half_even (10 * x) := by
    have : (599 : ℚ) < (round_half_even (10 * x) : ℚ) := by linarith
    exact_mod_cast this
  have hhi : round_half_even (10 * x) < (951 : ℤ) := by
    have : (round_half_even (10 * x) : ℚ) < 951 := by linarith
    exact_mod_cast this
  have hlo' : (600 : ℤ) ≤ round_half_even (10 * x) := hlo
  have hhi' : round_half_even (10 * x) ≤ (950 : ℤ) := by omega
  refine ⟨?_, ?_, round_half_even (10 * x), rfl⟩
  · have : (600 : ℚ) ≤ (round_half_even (10 * x) : ℚ) := by exact_mod_cast hlo'
    unfold py_round1; linarith
  · have : (round_half_even (10 * x) : ℚ) ≤ 950 := by exact_mod_cast hhi'
    unfold py_round1; linarith

/-- `random.uniform a b` stays in `[a, b]` when the raw draw is in `[0, 1]`. -/
theorem random_uniform_mem (a b : ℚ) (r : Rng) (hab : a ≤ b)
    (h0 : 0 ≤ r.u) (h1 : r.u ≤ 1) :
    a ≤ random_uniform a b r ∧ random_uniform a b r ≤ b := by
  unfold random_uniform
  constructor
  · nlinarith
  · nlinarith

/-! ## `mock_ai_analysis` (routers/ai_analysis.py, lines 17-176)

The analysis performed by the `analyze` endpoint: a locally generated
pseudo-random result.  The clinical text blocks are the source literals
(each Python adjacent-string concatenation rendered as one Lean string). -/

/-- The fixed candidate classifications of the mock analysis. -/
def fracture_types : List String :=
  [ "Mandibular body fracture - minimally displaced"
  , "Mandibular angle fracture - non-displaced"
  , "Mandibular symphysis fracture - displaced"
  , "Mandibular condyle fracture - intracapsular"
  , "Zygomatic complex fracture - depressed"
  , "Zygomatic arch fracture - isolated"
  , "Le Fort I fracture - minimally displaced"
  , "Le Fort II fracture - moderate displacement"
  , "Le Fort III fracture - craniofacial disjunction"
  , "Orbital floor fracture - non-displaced"
  , "Nasal bone fracture - simple"
  , "Maxillary alveolar fracture - segmental"
  , "Frontal sinus fracture - anterior wall"
  , "Dentoalveolar trauma - avulsion" ]

/-- Remarks for the `healing_percentage >= 90` branch. -/
def ai_remarks_90 : String :=
  "Excellent post-operative healing progress. Radiographic examination demonstrates optimal bone consolidation with mature callus formation evident at fracture site. Complete resolution of soft tissue swelling. No radiographic signs of infection, malunion, nonunion, or delayed union. Intermaxillary fixation (IMF) maintaining proper occlusal relationship. Periosteal reaction minimal. Tissue regeneration and bone remodeling within normal physiological parameters. Neurovascular status intact."

/-- Actions for the `healing_percentage >= 90` branch. -/
def recommended_actions_90 : String :=
  "CLINICAL MANAGEMENT - NEXT STEPS:\n\n• Dietary Progression: Advance to soft diet for 1-2 weeks, then regular diet as tolerated\n• Hardware Management: Consider IMF/arch bar removal if 6+ weeks post-operative\n• Imaging Follow-up: Schedule panoramic radiograph in 4 weeks to confirm complete osseous union\n• Physical Therapy: Initiate gradual jaw mobilization exercises and TMJ stretching\n• Activity: Resume normal activities, avoid contact sports for additional 4 weeks\n• Follow-up Schedule: Routine follow-up in 4-6 weeks\n• Medications: Discontinue antibiotics if currently prescribed; PRN acetaminophen for mild discomfort\n• Patient Education: Monitor for late complications (paresthesia, malocclusion)"

/-- Remarks for the `healing_percentage >= 85` branch. -/
def ai_remarks_85 : String :=
  "Very good healing trajectory with progressive improvement. Radiographic evaluation demonstrates active bone healing with early to intermediate callus formation visible at fracture margins. Minimal periosteal reaction observed - consistent with normal healing response. Fracture line still partially visible but with evidence of bridging callus. Soft tissue healing satisfactory with residual mild edema expected at this stage. No clinical signs of infection, wound dehiscence, or hardware failure. Occlusal relationship maintained and stable."

/-- Actions for the `healing_percentage >= 85` branch. -/
def recommended_actions_85 : String :=
  "CLINICAL MANAGEMENT - NEXT STEPS:\n\n• Dietary Modification: Maintain soft to semi-solid diet for additional 2-3 weeks\n• Hardware Management: Continue intermaxillary elastic traction if applicable; do not remove IMF yet\n• Imaging Protocol: Obtain follow-up panoramic radiograph or CT scan in 3 weeks\n• Physiotherapy: Initiate gentle passive range of motion exercises for TMJ\n• Neurosensory Assessment: Monitor for paresthesia in mental/infraorbital nerve distribution\n• Follow-up Schedule: Clinical and radiographic reassessment in 3 weeks mandatory\n• Nutritional Support: Consider vitamin D (2000 IU daily) and calcium (1000mg daily) supplementation\n• Pain Management: NSAIDs (ibuprofen 400mg TID) with food as needed\n• Warning Signs: Instruct patient to report increasing pain, swelling, or mobility at fracture site"

/-- Remarks for the `healing_percentage >= 75` branch. -/
def ai_remarks_75 : String :=
  "Good overall healing progress but still in intermediate fibrous union stage. Radiographic findings demonstrate bone healing in progress with fibrocartilaginous callus formation, but full osseous union not yet achieved. Moderate inflammation detected at fracture site - appears reactive rather than infectious in nature. Some periosteal thickening visible on imaging. Soft tissue edema persists but showing gradual improvement. Occlusal relationship maintained but requires close monitoring. No gross mobility at fracture site on clinical examination."

/-- Actions for the `healing_percentage >= 75` branch. -/
def recommended_actions_75 : String :=
  "CLINICAL MANAGEMENT - NEXT STEPS:\n\n• Dietary Restriction: STRICT soft/liquid diet for additional 3-4 weeks - no chewing stress\n• Hardware Management: Do NOT remove IMF at this time - bone union incomplete, high risk of displacement\n• Imaging Protocol: Repeat panoramic radiograph + consider limited cone beam CT in 2 weeks\n• Stability Assessment: Evaluate for any mobility at fracture site during next clinical visit\n• Adjunctive Therapy: Consider low-intensity pulsed ultrasound (LIPUS) to enhance osteogenesis\n• Laboratory Workup: Assess inflammatory markers (CRP, ESR) if systemic symptoms present\n• Nutritional Optimization: Ensure adequate protein intake (1.5-2g/kg/day), consider protein supplementation\n• Metabolic Panel: Check vitamin D, calcium, phosphate levels - correct deficiencies\n• Follow-up Schedule: Close monitoring - follow-up in 2 weeks mandatory\n• Pain Management: Scheduled NSAIDs (naproxen 500mg BID) + localized ice therapy\n• Risk Factor Modification: Smoking cessation counseling if applicable, optimize glycemic control if diabetic"

/-- Remarks for the `healing_percentage >= 65` branch. -/
def ai_remarks_65 : String :=
  "Moderate healing progress with concerning radiographic findings requiring intervention. Analysis reveals delayed union with insufficient callus formation at 4+ weeks post-operative - below expected healing trajectory. Moderate to significant persistent edema at surgical site. Possible early fibrous non-union development. Radiolucency noted at fracture margins suggesting inadequate bone apposition. Soft tissue inflammation present. Risk factors for healing complications identified. Hardware appears intact but fracture site biomechanically unstable."

/-- Actions for the `healing_percentage >= 65` branch. -/
def recommended_actions_65 : String :=
  "URGENT CLINICAL INTERVENTION REQUIRED:\n\n• Dietary Management: STRICT liquid/pureed diet only - absolutely no chewing forces\n• Hardware Management: Maintain rigid IMF for extended period (minimum 4-6 additional weeks)\n• Advanced Imaging: IMMEDIATE repeat CT scan with 3D reconstruction to assess bone healing and rule out infection/sequestrum\n• Laboratory Investigation: Comprehensive workup - CBC with differential, CRP, ESR, metabolic panel, vitamin D, PTH\n• Nuclear Medicine: Consider bone scan (99mTc-MDP) or MRI if osteomyelitis suspected\n• Risk Factor Assessment: Evaluate contributing factors - smoking history, diabetes control (HbA1c), nutritional status, immunosuppression\n• Surgical Consultation: Possible need for revision surgery, bone grafting, or hardware exchange if non-union confirmed\n• Specialist Referral: Oral & maxillofacial surgeon consultation for secondary opinion and management planning\n• Follow-up Frequency: Weekly clinical assessment until objective improvement documented\n• Antibiotic Coverage: Consider empiric antibiotic therapy (Augmentin 875mg BID or Clindamycin 300mg QID) if infection suspected\n• Bone Health Optimization: Calcium carbonate 1000mg + Vitamin D3 2000 IU daily, consider teriparatide if available\n• Patient Counseling: Discuss prolonged healing timeline and possible need for secondary procedures"

/-- Remarks for the `healing_percentage < 65` branch. -/
def ai_remarks_low : String :=
  "CRITICAL ALERT: Suboptimal healing with significant concerns for major complication. Radiographic examination demonstrates poor bone consolidation with established non-union or progressive malunion. Persistent radiolucency at fracture site highly concerning for chronic infection, osteomyelitis, or avascular necrosis. Significant soft tissue swelling with possible abscess formation or fistula development. Occlusal discrepancy noted suggesting hardware failure or fracture displacement. High risk for complications including chronic osteomyelitis, pathological refracture, or need for segmental resection and reconstruction."

/-- Actions for the `healing_percentage < 65` branch. -/
def recommended_actions_low : String :=
  "EMERGENCY INTERVENTION - IMMEDIATE ACTION REQUIRED:\n\n• URGENT: In-person clinical evaluation within 24 hours - DO NOT DELAY\n• Emergency Imaging: Full maxillofacial CT with IV contrast + 3D reconstruction STAT\n• Infectious Disease Workup: Blood cultures if fever (>38°C), wound culture from any drainage\n• Comprehensive Labs: CBC with differential, CRP, ESR, procalcitonin, blood glucose, metabolic panel, liver function tests\n• Surgical Planning: High probability of requiring surgical exploration, debridement, sequestrectomy, and hardware revision\n• Hardware Management: Prepare for infected hardware removal and possible external fixation\n• Antibiotic Therapy: IMMEDIATE IV antibiotics - empiric coverage with Piperacillin-Tazobactam 4.5g IV Q6H or Clindamycin 600mg IV Q8H\n• NPO Status: Make patient NPO (nothing by mouth) in preparation for potential emergency surgery\n• Hospital Admission: Consider admission for IV antibiotics and close monitoring if systemic signs of infection\n• Infectious Disease Consult: If chronic osteomyelitis suspected - may require 4-6 weeks IV antibiotics\n• Biopsy Protocol: Bone biopsy for culture, sensitivity, and histopathology during surgical exploration\n• Nutritional Support: TPN (total parenteral nutrition) if prolonged NPO status expected\n• Vascular Assessment: Rule out compromised vascular supply contributing to non-union\n• Monitoring Protocol: DAILY clinical assessment, vital signs Q4H, inflammatory markers every 48-72 hours\n• Multidisciplinary Team: Involve OMFS, infectious disease, nutrition, anesthesia for comprehensive management\n• Informed Consent: Document detailed discussion regarding need for revision surgery, possible bone grafting, extended healing time\n• Family Communication: Update family regarding serious nature of complication and treatment plan"

/-- The dict returned by `mock_ai_analysis`. -/
structure MockResult where
  healing_percentage : ℚ
  ai_remarks : String
  fracture_classification : String
  recommended_actions : String
  deriving DecidableEq

/-- `mock_ai_analysis(image_path)`: healing percentage is
`round(random.uniform(60.0, 95.0), 1)`, classification is a random choice,
remarks/actions follow the percentage thresholds.  The path argument is
received and never used (the file is never opened). -/
def mock_ai_analysis (image_path : String) (r : Rng) : MockResult :=
  let healing_percentage := py_round1 (random_uniform 60 95 r)
  let fracture_classification := random_choice fracture_types r
  if 90 ≤ healing_percentage then
    { healing_percentage, ai_remarks := ai_remarks_90, fracture_classification
    , recommended_actions := recommended_actions_90 }
  else if 85 ≤ healing_percentage then
    { healing_percentage, ai_remarks := ai_remarks_85, fracture_classification
    , recommended_actions := recommended_actions_85 }
  else if 75 ≤ healing_percentage then
    { healing_percentage, ai_remarks := ai_remarks_75, fracture_classification
    , recommended_actions := recommended_actions_75 }
  else if 65 ≤ healing_percentage then
    { healing_percentage, ai_remarks := ai_remarks_65, fracture_classification
    , recommended_actions := recommended_actions_65 }
  else
    { healing_percentage, ai_remarks := ai_remarks_low, fracture_classification
    , recommended_actions := recommended_actions_low }

/-- All branches of the mock report the same (rounded, uniform) percentage. -/
theorem mock_ai_analysis_healing (image_path : String) (r : Rng) :
    (mock_ai_analysis image_path r).healing_percentage =
      py_round1 (random_uniform 60 95 r) := by
  simp only [mock_ai_analysis]
  split_ifs <;> rfl

/-- The mock never reads the path (let alone the file behind it). -/
theorem mock_ai_analysis_path_free (p q : String) (r : Rng) :
    mock_ai_analysis p r = mock_ai_analysis q r := rfl

/-! ## `_parse_analysis_response` (services/gemini_service.py, lines 172-239)

The source first runs `re.search(r'``````', analysis_text, re.DOTALL)`.
That pattern is the literal six-backtick string and contains **no capture
group**, so:
* it matches exactly when the text contains six consecutive backticks
  (never for an ordinary ```-fenced block, whose fences are separated by
  the payload), and
* on a match, `json_match.group(1)` raises `IndexError`, which falls into
  the final `except Exception: raise` handler and propagates.

Otherwise `json.loads` is attempted on the whole text; `JSONDecodeError`
is caught and mapped to the degraded fallback dict. -/

/-- Does `pat` occur as a contiguous infix of `l`? -/
def listHasInfix (pat : List Char) : List Char → Bool
  | [] => pat.isEmpty
  | c :: rest => pat.isPrefixOf (c :: rest) || listHasInfix pat rest

/-- The six-backtick pattern of the source regex. -/
def sixBackticks : List Char := List.replicate 6 (Char.ofNat 96)

/-- Whether `re.search(r'``````', s, re.DOTALL)` finds a match. -/
def hasSixBackticks (s : String) : Bool := listHasInfix sixBackticks s.data

/-- Python `s[:n]` on a string (character slicing). -/
def py_truncate (s : String) (n : Nat) : String := String.mk (s.data.take n)

/-- `dict.get key default` on a parsed-JSON object. -/
def jget (kvs : List (String × Json)) (key : String) (default : Json) : Json :=
  match kvs.find? (fun kv => kv.1 == key) with
  | some kv => kv.2
  | none => default

/-- Digits-only accumulation for the decimal parser behind `float(str)`. -/
def decDigitsVal (acc : Nat) : List Char → Option Nat
  | [] => some acc
  | c :: cs => if c.isDigit then decDigitsVal (10 * acc + (c.toNat - 48)) cs else none

/-- Python `float(s)` on the decimal literals exercised here: optional sign,
digits with an optional fractional part.  (Whitespace, exponents and
inf/nan spellings are not exercised by the repository and are treated as
failures.) -/
def parsePyFloat (s : String) : Option ℚ :=
  let cs := s.data
  let signed : ℚ × List Char :=
    match cs with
    | c :: rest => if c = Char.ofNat 45 then (-1, rest)
                   else if c = Char.ofNat 43 then (1, rest) else (1, cs)
    | [] => (1, cs)
  let sign := signed.1
  let body := signed.2
  let intPart := body.takeWhile Char.isDigit
  let rest := body.dropWhile Char.isDigit
  match rest with
  | [] =>
    if intPart.isEmpty then none
    else (decDigitsVal 0 intPart).map (fun n => sign * (n : ℚ))
  | c :: frac =>
    if c = Char.ofNat 46 ∧ frac.all Char.isDigit ∧ ¬(intPart.isEmpty ∧ frac.isEmpty) then
      match decDigitsVal 0 intPart, decDigitsVal 0 frac with
      | some n, some f => some (sign * ((n : ℚ) + (f : ℚ) / (10 : ℚ) ^ frac.length))
      | _, _ => none
    else none

/-- Python `float(v)` on a parsed-JSON value: numbers pass through, bools
coerce, numeric strings are parsed (`ValueError` otherwise), all other
types raise `TypeError`. -/
def py_float : Json → Except PyExc ℚ
  | .num q => .ok q
  | .bool b => .ok (if b then 1 else 0)
  | .str s => match parsePyFloat s with
              | some q => .ok q
              | none => .error .valueError
  | _ => .error .typeError

/-- Python `str(v)` as used by the f-string interpolations.  Strings render
as themselves — the only case the claims depend on; the renderings of the
remaining cases approximate `repr`-style output. -/
def py_str_of : Json → String
  | .str s => s
  | .num q => toString q
  | .bool b => if b then "True" else "False"
  | .null => "None"
  | .arr _ => "[...]"
  | .obj _ => "\x7b...\x7d"

/-- Python `v[:5]` followed by iteration, as applied to the findings and
actions values: a list slices to its first five elements, a string slices
and then iterates character by character; other types raise `TypeError`. -/
def py_slice5 : Json → Except PyExc (List Json)
  | .arr xs => .ok (xs.take 5)
  | .str s => .ok ((s.data.take 5).map (fun c => .str (String.mk [c])))
  | _ => .error .typeError

/-- `s.upper()` on the ASCII strings arising here (structural form of
`String.toUpper`). -/
def py_str_upper (s : String) : String := String.mk (s.data.map Char.toUpper)

/-- `v.upper()`: attribute lookup fails (`AttributeError`) off strings. -/
def py_upper : Json → Except PyExc String
  | .str s => .ok (py_str_upper s)
  | _ => .error .attributeError

/-- The dict `_parse_analysis_response` returns.  `fracture_classification`
is stored exactly as extracted from the JSON (any value type). -/
structure GeminiResult where
  healing_percentage : ℚ
  fracture_classification : Json
  ai_remarks : String
  recommended_actions : String

/-- The degraded fallback dict built in the `except json.JSONDecodeError`
handler. -/
def parse_fallback (analysis_text : String) : GeminiResult :=
  { healing_percentage := 50
  , fracture_classification := .str "Manual review required"
  , ai_remarks := "AI Analysis Output:\n" ++ py_truncate analysis_text 800
  , recommended_actions := "• Clinical evaluation recommended\n• Manual review of AI output required" }

/-- `GeminiAnalysisService._parse_analysis_response(analysis_text)`.
`loads` stands for `json.loads` (`none` = `JSONDecodeError`). -/
def _parse_analysis_response (loads : String → Option Json) (analysis_text : String) :
    Except PyExc GeminiResult :=
  if hasSixBackticks analysis_text then
    -- the no-group pattern matched: `json_match.group(1)` raises IndexError,
    -- re-raised by the generic `except Exception` handler
    .error .indexError
  else
    match loads analysis_text with
    | none => .ok (parse_fallback analysis_text)
    | some (.obj kvs) => do
        let healing_raw ← py_float (jget kvs "healing_percentage" (.num 50))
        let healing_pct := max 0 (min 100 healing_raw)
        let findings ← py_slice5
          (jget kvs "detailed_findings" (.arr [.str "Analysis completed"]))
        let findings_text :=
          String.intercalate "\n" (findings.map (fun f => "• " ++ py_str_of f))
        let actions ← py_slice5
          (jget kvs "recommended_actions" (.arr [.str "Routine follow-up recommended"]))
        let actions_text :=
          String.intercalate "\n" (actions.map (fun a => "• " ++ py_str_of a))
        let severity ← py_upper (jget kvs "severity" (.str "unknown"))
        let ai_remarks :=
          "PRIMARY DIAGNOSIS: " ++
            py_str_of (jget kvs "primary_diagnosis" (.str "Assessment completed")) ++
          "\n\nSEVERITY: " ++ severity ++
          "\n\nKEY FINDINGS:\n" ++ findings_text ++
          "\n\nCLINICAL NOTES:\n" ++
            py_str_of (jget kvs "clinical_notes" (.str "No additional notes"))
        .ok { healing_percentage := healing_pct
            , fracture_classification := jget kvs "fracture_classification" (.str "Analysis completed")
            , ai_remarks, recommended_actions := actions_text }
    | some _ =>
        -- `analysis_json.get` on a non-dict raises AttributeError,
        -- re-raised by the generic handler
        .error .attributeError

/-! ## Process environment and the Gemini service singleton
(config.py and services/gemini_service.py, lines 26-37 and 242-247) -/

/-- `GEMINI_MODEL` from config.py. -/
def GEMINI_MODEL : String := "gemini-2.5-flash"

/-- The ambient process environment: the file store behind uploaded image
paths, the `GEMINI_API_KEY` environment variable, and (as an oracle) the
text the external vision model would answer with. -/
structure Env where
  fs : String → Option (List Nat)
  gemini_api_key : Option String
  vision_response : String

/-- The configured service object. -/
structure GeminiAnalysisService where
  model_name : String
  deriving DecidableEq

/-- `GeminiAnalysisService.__init__`: raises `ValueError` when
`GEMINI_API_KEY` is absent. -/
def GeminiAnalysisService.init (env : Env) : Except PyExc GeminiAnalysisService :=
  match env.gemini_api_key with
  | none => .error .valueError
  | some _ => .ok { model_name := GEMINI_MODEL }

/-- The module-level singleton: `None` when construction raised. -/
def gemini_service (env : Env) : Option GeminiAnalysisService :=
  match GeminiAnalysisService.init env with
  | .ok s => some s
  | .error _ => none

/-- One external call performed against the Gemini API. -/
inductive ExtCall where
  | geminiUpload : String → ExtCall
  | geminiGenerate : String → ExtCall
  deriving DecidableEq

/-- `GeminiAnalysisService.analyze_dental_image(image_path)` (for a
configured service): checks the file exists (`FileNotFoundError`
otherwise), uploads it, generates content, and parses the response text.
Returned alongside the list of external calls it performs. -/
def analyze_dental_image (svc : GeminiAnalysisService) (env : Env)
    (loads : String → Option Json) (image_path : String) :
    Except PyExc GeminiResult × List ExtCall :=
  match env.fs image_path with
  | none => (.error .fileNotFoundError, [])
  | some _ =>
    ( _parse_analysis_response loads env.vision_response
    , [.geminiUpload image_path, .geminiGenerate svc.model_name] )

/-! ## Database rows and the analysis router
(models/image.py, models/patient.py, models/user.py,
schemas/image_schema.py, routers/ai_analysis.py)

Only the columns read or written by the analysis endpoints are modelled;
timestamps are abstract `Nat` instants. -/

/-- `HealingImage` row (models/image.py). -/
structure HealingImage where
  id : Nat
  patient_id : Nat
  image_path : String
  upload_date : Nat
  healing_percentage : Option ℚ := none
  ai_remarks : Option String := none
  analyzed : Bool := false
  fracture_classification : Option String := none
  recommended_actions : Option String := none
  deriving DecidableEq

/-- `Patient` row (models/patient.py); columns unused by these endpoints
are omitted. -/
structure Patient where
  id : Nat
  user_id : Nat
  current_healing_percentage : ℚ := 0
  deriving DecidableEq

/-- `User` row (models/user.py); only identity and role are consulted. -/
structure User where
  id : Nat
  role : String
  deriving DecidableEq

/-- The record store the session queries and commits against. -/
structure DB where
  images : List HealingImage
  patients : List Patient
  deriving DecidableEq

/-- The `AIAnalysisResult` response schema (schemas/image_schema.py).
`healing_percentage` was removed from the schema (commented out in the
source), so although the router passes it as a keyword argument, pydantic
ignores it and the response carries no such field. -/
structure AIAnalysisResult where
  image_id : Nat
  ai_remarks : String
  fracture_classification : String
  recommended_actions : String
  analyzed_at : Nat
  deriving DecidableEq

/-- How an endpoint invocation can fail: an `HTTPException(code, detail)`,
an uncaught Python exception (a 500), or a pydantic response-validation
failure (`None` in a non-optional response field). -/
inductive AppError where
  | http : Nat → String → AppError
  | pyError : PyExc → AppError
  | validationError : AppError
  deriving DecidableEq

/-- `POST /analyze/{image_id}` (`analyze_image`, routers/ai_analysis.py,
lines 179-229).  Returns the response (or error), the committed database
(unchanged when the request dies before `db.commit()` — the session is
rolled back), and the external calls performed (none: the handler invokes
the local `mock_ai_analysis`, never the Gemini service). -/
def analyze_image (image_id : Nat) (db : DB) (current_user : User) (r : Rng)
    (now : Nat) (env : Env) :
    Except AppError AIAnalysisResult × DB × List ExtCall :=
  match db.images.find? (fun img => img.id == image_id) with
  | none => (.error (.http 404 "Image not found"), db, [])
  | some image =>
    match db.patients.find? (fun p => p.id == image.patient_id) with
    | none =>
      -- a missing owner row makes `patient` None: for a "patient" requester
      -- `patient.user_id` raises at once; for any other role the handler
      -- mutates the image in-session and then `patient.current_healing_percentage`
      -- raises before `db.commit()`, so the rollback leaves the store
      -- unchanged either way
      (.error (.pyError .attributeError), db, [])
    | some patient =>
      if current_user.role == "patient" && patient.user_id != current_user.id then
        (.error (.http 403 "Not authorized to analyze this image"), db, [])
      else
        let analysis_result := mock_ai_analysis image.image_path r
        let image' := { image with
          healing_percentage := some analysis_result.healing_percentage
          , ai_remarks := some analysis_result.ai_remarks
          , fracture_classification := some analysis_result.fracture_classification
          , recommended_actions := some analysis_result.recommended_actions
          , analyzed := true }
        let patient' := { patient with
          current_healing_percentage := analysis_result.healing_percentage }
        let db' : DB :=
          { images := db.images.map (fun im => if im.id == image.id then image' else im)
          , patients := db.patients.map (fun p => if p.id == patient.id then patient' else p) }
        ( .ok { image_id := image.id
              , ai_remarks := analysis_result.ai_remarks
              , fracture_classification := analysis_result.fracture_classification
              , recommended_actions := analysis_result.recommended_actions
              , analyzed_at := now }
        , db', [] )

/-- Building an `AIAnalysisResult` response from a stored image row:
pydantic rejects `None` in the non-optional string fields. -/
def analysis_result_of (image : HealingImage) : Except AppError AIAnalysisResult :=
  match image.ai_remarks, image.fracture_classification, image.recommended_actions with
  | some a, some f, some rec =>
    .ok { image_id := image.id, ai_remarks := a, fracture_classification := f
        , recommended_actions := rec, analyzed_at := image.upload_date }
  | _, _, _ => .error .validationError

/-- `GET /results/{image_id}` (`get_analysis_results`, routers/ai_analysis.py,
lines 232-272).  Read-only. -/
def get_analysis_results (image_id : Nat) (db : DB) (current_user : User) :
    Except AppError AIAnalysisResult :=
  match db.images.find? (fun img => img.id == image_id) with
  | none => .error (.http 404 "Image not found")
  | some image =>
    if current_user.role == "patient" then
      match db.patients.find? (fun p => p.id == image.patient_id) with
      | none => .error (.pyError .attributeError)  -- `patient.user_id` on None
      | some patient =>
        if patient.user_id != current_user.id then
          .error (.http 403 "Not authorized to view this analysis")
        else if !image.analyzed then
          .error (.http 400 "Image has not been analyzed yet")
        else analysis_result_of image
    else if !image.analyzed then
      -- non-"patient" roles short-circuit the ownership conjunction and the
      -- missing-owner row is never dereferenced on this path
      .error (.http 400 "Image has not been analyzed yet")
    else analysis_result_of image

/-- `GET /history/{patient_id}` (`get_healing_history`,
routers/ai_analysis.py, lines 275-318): all analyzed images of the
patient, ordered by ascending upload date, each rendered as a response
item. -/
def get_healing_history (patient_id : Nat) (db : DB) (current_user : User) :
    Except AppError (List AIAnalysisResult) :=
  match db.patients.find? (fun p => p.id == patient_id) with
  | none => .error (.http 404 "Patient not found")
  | some patient =>
    if current_user.role == "patient" && patient.user_id != current_user.id then
      .error (.http 403 "Not authorized to view this history")
    else
      -- `ORDER BY upload_date ASC`: a stable ascending sort on the upload date
      let images :=
        List.insertionSort (fun a b => a.upload_date ≤ b.upload_date)
          (db.images.filter (fun i => i.patient_id == patient_id && i.analyzed))
      images.mapM analysis_result_of

/-! ## Concrete fixtures used by counterexamples and witnesses -/

/-- A fixed raw-draw record: unit draw `0`, choice draw `0`. -/
def rng0 : Rng := { u := 0, k := 0 }

/-- An environment with no `GEMINI_API_KEY`, an empty file store and an
empty model response. -/
def env0 : Env := { fs := fun _ => none, gemini_api_key := none, vision_response := "" }

/-- A requester with the doctor role. -/
def doctorU : User := { id := 1, role := "doctor" }

/-- Patient record `7`, owned by user `100`. -/
def patA : Patient := { id := 7, user_id := 100, current_healing_percentage := 80 }

/-- An already-analyzed image `42` of patient `7`. -/
def imgA : HealingImage :=
  { id := 42, patient_id := 7, image_path := "uploads/a.png", upload_date := 10
  , healing_percentage := some 80, ai_remarks := some "prior remarks"
  , analyzed := true, fracture_classification := some "prior class"
  , recommended_actions := some "prior actions" }

/-- Store holding the analyzed image `42` and its owner. -/
def dbA : DB := { images := [imgA], patients := [patA] }

/-- With the zero draws the mock lands on `60.0` (the `< 65` branch) and
the first classification. -/
theorem mock_rng0 (p : String) : mock_ai_analysis p rng0 =
    { healing_percentage := 60, ai_remarks := ai_remarks_low
    , fracture_classification := "Mandibular body fracture - minimally displaced"
    , recommended_actions := recommended_actions_low } := by
  have h1 : random_uniform 60 95 rng0 = 60 := by norm_num [random_uniform, rng0]
  have h2 : py_round1 60 = 60 := by norm_num [py_round1, round_half_even]
  have h3 : random_choice fracture_types rng0 =
      "Mandibular body fracture - minimally displaced" := by
    simp [random_choice, rng0, fracture_types]
  simp only [mock_ai_analysis, h1, h2, h3]
  norm_num

/-! ## Claim C1 -/

/-- Claim C1, counterexample: calling `analyze` on image `42`, whose
`analyzed` flag is already `true`, does not fail with any AlreadyAnalyzed
error — it succeeds and mutates the store (the stored healing percentage
is overwritten from `80` to the fresh mock value `60`). -/
theorem reanalysis_succeeds_and_overwrites_cex :
    (analyze_image 42 dbA doctorU rng0 99 env0).1.isOk = true ∧
    (analyze_image 42 dbA doctorU rng0 99 env0).2.1.images.map
      (fun i => i.healing_percentage) = [some 60] ∧
    dbA.images.map (fun i => i.healing_percentage) = [some 80] := by
  refine ⟨?_, ?_, by simp [dbA, imgA]⟩ <;>
    simp [analyze_image, dbA, imgA, patA, doctorU, mock_rng0,
      Except.isOk, Except.toBool]

/-- Claim C1 (amended): `analyze_image` never consults the `analyzed`
flag; on an already-analyzed image (image and owner present, doctor
requester) it succeeds again, returning a fresh mock outcome and
overwriting the stored outcome fields. -/
theorem analyze_ignores_analyzed_flag
    (image_id : Nat) (db : DB) (cu : User) (r : Rng) (now : Nat) (env : Env)
    (img : HealingImage) (pat : Patient)
    (himg : db.images.find? (fun i => i.id == image_id) = some img)
    (hana : img.analyzed = true)
    (hpat : db.patients.find? (fun p => p.id == img.patient_id) = some pat)
    (hrole : cu.role = "doctor") :
    (analyze_image image_id db cu r now env).1 =
      .ok { image_id := img.id
          , ai_remarks := (mock_ai_analysis img.image_path r).ai_remarks
          , fracture_classification := (mock_ai_analysis img.image_path r).fracture_classification
          , recommended_actions := (mock_ai_analysis img.image_path r).recommended_actions
          , analyzed_at := now } ∧
    (analyze_image image_id db cu r now env).2.1.images =
      db.images.map (fun im => if im.id == img.id then
        { img with
          healing_percentage := some (mock_ai_analysis img.image_path r).healing_percentage
          , ai_remarks := some (mock_ai_analysis img.image_path r).ai_remarks
          , fracture_classification := some (mock_ai_analysis img.image_path r).fracture_classification
          , recommended_actions := some (mock_ai_analysis img.image_path r).recommended_actions
          , analyzed := true } else im) := by
  simp [analyze_image, himg, hpat, hrole]

/-- Claim C1 witness: the amended theorem at the concrete analyzed image. -/
theorem analyze_ignores_analyzed_flag_witness :
    (analyze_image 42 dbA doctorU rng0 99 env0).1 =
      .ok { image_id := imgA.id
          , ai_remarks := (mock_ai_analysis imgA.image_path rng0).ai_remarks
          , fracture_classification := (mock_ai_analysis imgA.image_path rng0).fracture_classification
          , recommended_actions := (mock_ai_analysis imgA.image_path rng0).recommended_actions
          , analyzed_at := 99 } ∧
    (analyze_image 42 dbA doctorU rng0 99 env0).2.1.images =
      dbA.images.map (fun im => if im.id == imgA.id then
        { imgA with
          healing_percentage := some (mock_ai_analysis imgA.image_path rng0).healing_percentage
          , ai_remarks := some (mock_ai_analysis imgA.image_path rng0).ai_remarks
          , fracture_classification := some (mock_ai_analysis imgA.image_path rng0).fracture_classification
          , recommended_actions := some (mock_ai_analysis imgA.image_path rng0).recommended_actions
          , analyzed := true } else im) :=
  analyze_ignores_analyzed_flag 42 dbA doctorU rng0 99 env0 imgA patA
    (by simp [dbA, imgA]) rfl (by simp [dbA, imgA, patA]) rfl

/-! ## Claim C2 -/

/-- Claim C2: on a successful `analyze` (image and owner found, requester
authorized, raw uniform draw in `[0,1]`) the stored healing percentage is
the mock's value: it lies in `[60, 95]` on the one-decimal grid, it is
copied to the owning patient's `current_healing_percentage`, the response
and stored fields are exactly the mock's output, no external (Gemini)
call is performed, and the result is independent of the environment — in
particular of the bytes at the image's stored path. -/
theorem analyze_uses_local_mock
    (image_id : Nat) (db : DB) (cu : User) (r : Rng) (now : Nat) (env : Env)
    (img : HealingImage) (pat : Patient)
    (himg : db.images.find? (fun i => i.id == image_id) = some img)
    (hpat : db.patients.find? (fun p => p.id == img.patient_id) = some pat)
    (hauth : (cu.role == "patient" && pat.user_id != cu.id) = false)
    (hu0 : 0 ≤ r.u) (hu1 : r.u ≤ 1) :
    (60 ≤ (mock_ai_analysis img.image_path r).healing_percentage ∧
      (mock_ai_analysis img.image_path r).healing_percentage ≤ 95 ∧
      ∃ n : ℤ, (mock_ai_analysis img.image_path r).healing_percentage = (n : ℚ) / 10) ∧
    (analyze_image image_id db cu r now env).1 =
      .ok { image_id := img.id
          , ai_remarks := (mock_ai_analysis img.image_path r).ai_remarks
          , fracture_classification := (mock_ai_analysis img.image_path r).fracture_classification
          , recommended_actions := (mock_ai_analysis img.image_path r).recommended_actions
          , analyzed_at := now } ∧
    (analyze_image image_id db cu r now env).2.1.patients =
      db.patients.map (fun p => if p.id == pat.id then
        { pat with current_healing_percentage :=
            (mock_ai_analysis img.image_path r).healing_percentage } else p) ∧
    (analyze_image image_id db cu r now env).2.2 = [] ∧
    (∀ env' : Env, analyze_image image_id db cu r now env' =
      analyze_image image_id db cu r now env) := by
  refine ⟨?_, ?_⟩
  · rw [mock_ai_analysis_healing]
    have hu := random_uniform_mem 60 95 r (by norm_num) hu0 hu1
    have hr := py_round1_range _ hu.1 hu.2
    exact ⟨hr.1, hr.2.1, hr.2.2⟩
  · refine ⟨?_, ?_, ?_, fun env' => rfl⟩ <;>
      simp [analyze_image, himg, hpat, hauth]

/-- Claim C2 witness: the range-and-grid conjunct at the concrete fixture
(mock value `60.0`). -/
theorem analyze_uses_local_mock_witness :
    60 ≤ (mock_ai_analysis imgA.image_path rng0).healing_percentage ∧
    (mock_ai_analysis imgA.image_path rng0).healing_percentage ≤ 95 ∧
    ∃ n : ℤ, (mock_ai_analysis imgA.image_path rng0).healing_percentage = (n : ℚ) / 10 :=
  (analyze_uses_local_mock 42 dbA doctorU rng0 99 env0 imgA patA
    (by simp [dbA, imgA]) (by simp [dbA, imgA, patA]) (by simp [doctorU])
    (by norm_num [rng0]) (by norm_num [rng0])).1

/-! ## Claim C3 -/

/-- Claim C3, counterexample: the parser is not total — on an input of six
consecutive backticks the broken fence regex matches, `group(1)` raises
`IndexError`, and the generic handler re-raises it, so `parse` raises for
any behaviour of `json.loads`. -/
theorem parse_raises_on_six_backticks_cex :
    _parse_analysis_response (fun _ => none) (String.mk sixBackticks) =
      .error .indexError := rfl

/-- Claim C3 (amended): whenever the parser does return an outcome (it can
instead raise, e.g. on six consecutive backticks or a non-float-convertible
`healing_percentage`), the returned `healing_percentage` lies in `[0, 100]`. -/
theorem parse_ok_healing_in_range
    (loads : String → Option Json) (text : String) (res : GeminiResult)
    (h : _parse_analysis_response loads text = .ok res) :
    0 ≤ res.healing_percentage ∧ res.healing_percentage ≤ 100 := by
  unfold _parse_analysis_response at h
  by_cases hb : hasSixBackticks text
  · simp [hb] at h
  · simp only [hb, if_false, Bool.false_eq_true] at h
    cases hl : loads text with
    | none =>
      rw [hl] at h
      injection h with h
      subst h
      norm_num [parse_fallback]
    | some j =>
      rw [hl] at h
      cases j with
      | obj kvs =>
        cases hf : py_float (jget kvs "healing_percentage" (.num 50)) with
        | error e => simp [hf, Bind.bind, Except.bind] at h
        | ok q =>
          cases hd : py_slice5
              (jget kvs "detailed_findings" (.arr [.str "Analysis completed"])) with
          | error e => simp [hf, hd, Bind.bind, Except.bind] at h
          | ok findings =>
            cases ha : py_slice5
                (jget kvs "recommended_actions" (.arr [.str "Routine follow-up recommended"])) with
            | error e => simp [hf, hd, ha, Bind.bind, Except.bind] at h
            | ok actions =>
              cases hs : py_upper (jget kvs "severity" (.str "unknown")) with
              | error e => simp [hf, hd, ha, hs, Bind.bind, Except.bind] at h
              | ok severity =>
                simp only [hf, hd, ha, hs, Bind.bind, Except.bind, Except.ok.injEq] at h
                subst h
                constructor
                · exact le_max_left 0 _
                · exact max_le (by norm_num) (min_le_left 100 q)
      | null => simp at h
      | bool b => simp at h
      | num q => simp at h
      | str s => simp at h
      | arr xs => simp at h

/-- Claim C3 witness: the amended theorem at a parse-failure input, whose
fallback outcome carries `healing_percentage = 50`. -/
theorem parse_ok_healing_in_range_witness :
    0 ≤ (parse_fallback "not json").healing_percentage ∧
    (parse_fallback "not json").healing_percentage ≤ 100 :=
  parse_ok_healing_in_range (fun _ => none) "not json" (parse_fallback "not json") rfl

/-! ## Claim C4 -/

/-- An unanalyzed image `5` of patient `7`. -/
def imgB : HealingImage :=
  { id := 5, patient_id := 7, image_path := "uploads/b.png", upload_date := 3 }

/-- Store holding the unanalyzed image `5` and its owner. -/
def dbB : DB := { images := [imgB], patients := [patA] }

/-- Claim C4, counterexample: with no credential configured (the Gemini
singleton is `None`), `analyze` does not fail with ServiceUnavailable — it
succeeds and marks the image analyzed. -/
theorem analyze_without_config_succeeds_cex :
    gemini_service env0 = none ∧
    (analyze_image 5 dbB doctorU rng0 11 env0).1.isOk = true ∧
    (analyze_image 5 dbB doctorU rng0 11 env0).2.1.images.map
      (fun i => i.analyzed) = [true] ∧
    dbB.images.map (fun i => i.analyzed) = [false] := by
  refine ⟨rfl, ?_, ?_, by simp [dbB, imgB]⟩ <;>
    simp [analyze_image, dbB, imgB, patA, doctorU, mock_rng0,
      Except.isOk, Except.toBool]

/-- Claim C4 (amended): the `analyze` endpoint never consults the AI
configuration: with no credential present it still succeeds (image and
owner found, requester authorized), and its entire behaviour is
independent of the environment, so no configuration check and no
pre-commit short-circuit exist. -/
theorem analyze_ignores_configuration
    (image_id : Nat) (db : DB) (cu : User) (r : Rng) (now : Nat) (env : Env)
    (img : HealingImage) (pat : Patient)
    (hkey : env.gemini_api_key = none)
    (himg : db.images.find? (fun i => i.id == image_id) = some img)
    (hpat : db.patients.find? (fun p => p.id == img.patient_id) = some pat)
    (hauth : (cu.role == "patient" && pat.user_id != cu.id) = false) :
    (analyze_image image_id db cu r now env).1.isOk = true ∧
    (∀ env' : Env, analyze_image image_id db cu r now env' =
      analyze_image image_id db cu r now env) := by
  refine ⟨?_, fun env' => rfl⟩
  simp [analyze_image, himg, hpat, hauth, Except.isOk, Except.toBool]

/-- Claim C4 witness: the amended theorem at the unconfigured fixture. -/
theorem analyze_ignores_configuration_witness :
    (analyze_image 5 dbB doctorU rng0 11 env0).1.isOk = true ∧
    (∀ env' : Env, analyze_image 5 dbB doctorU rng0 11 env' =
      analyze_image 5 dbB doctorU rng0 11 env0) :=
  analyze_ignores_configuration 5 dbB doctorU rng0 11 env0 imgB patA rfl
    (by simp [dbB, imgB]) (by simp [dbB, imgB, patA]) (by simp [doctorU])

/-! ## Claim C5 -/

/-- Whether a result is a 403/Forbidden failure. -/
def isForbidden : Except AppError α → Bool
  | .error (.http 403 _) => true
  | _ => false

/-- A success is not a 403. -/
theorem isForbidden_ok (a : α) : isForbidden (Except.ok a : Except AppError α) = false := rfl

/-- A 400 failure is not a 403. -/
theorem isForbidden_http400 (s : String) :
    isForbidden (Except.error (.http 400 s) : Except AppError α) = false := rfl

/-- A 403 failure is one. -/
theorem isForbidden_http403 (s : String) :
    isForbidden (Except.error (.http 403 s) : Except AppError α) = true := rfl

/-- Building a response row never yields a 403. -/
theorem isForbidden_analysis_result_of (img : HealingImage) :
    isForbidden (analysis_result_of img) = false := by
  unfold analysis_result_of
  split <;> rfl

/-- A row-building failure is always the validation error. -/
theorem analysis_result_of_error (img : HealingImage) (e : AppError)
    (h : analysis_result_of img = .error e) : e = .validationError := by
  unfold analysis_result_of at h
  split at h
  · exact absurd h (by simp)
  · injection h with h
    exact h.symm

/-- Rendering a history tail never yields a 403 (loop form of `mapM`). -/
theorem isForbidden_mapM_loop (l : List HealingImage) (acc : List AIAnalysisResult) :
    isForbidden (List.mapM.loop analysis_result_of l acc) = false := by
  induction l generalizing acc with
  | nil => rfl
  | cons hd tl ih =>
    rw [List.mapM.loop]
    cases h : analysis_result_of hd with
    | error e =>
      have he := analysis_result_of_error hd e h
      subst he
      simp [Bind.bind, Except.bind, isForbidden]
    | ok a =>
      simp only [Bind.bind, Except.bind]
      exact ih (a :: acc)

/-- Rendering a whole history never yields a 403. -/
theorem isForbidden_mapM (l : List HealingImage) :
    isForbidden (l.mapM analysis_result_of) = false :=
  isForbidden_mapM_loop l []

/-- A requester with a role that is neither doctor nor patient. -/
def nurseU : User := { id := 5, role := "nurse" }

/-- Claim C5, counterexample: a requester with role `"nurse"` — neither
doctor nor owning patient — is not denied: reading image `42`'s analysis
succeeds, although the claim says any role other than doctor/patient is
Forbidden. -/
theorem other_role_not_denied_cex :
    nurseU.role ≠ "doctor" ∧ nurseU.role ≠ "patient" ∧ patA.user_id ≠ nurseU.id ∧
    get_analysis_results 42 dbA nurseU =
      .ok { image_id := 42, ai_remarks := "prior remarks"
          , fracture_classification := "prior class"
          , recommended_actions := "prior actions", analyzed_at := 10 } :=
  ⟨by decide, by decide, by decide, rfl⟩

/-- Claim C5 (amended): the access decision of all three endpoints is:
a requester whose role is the string `"patient"` is denied exactly when
the owning patient's `user_id` differs from the requester's id; a
requester with any other role (not just `"doctor"`) is never denied. -/
theorem access_checks_only_patient_role
    (db : DB) (cu : User) (r : Rng) (now : Nat) (env : Env)
    (image_id pid : Nat) (img : HealingImage) (pat pat2 : Patient)
    (himg : db.images.find? (fun i => i.id == image_id) = some img)
    (hpat : db.patients.find? (fun p => p.id == img.patient_id) = some pat)
    (hpat2 : db.patients.find? (fun p => p.id == pid) = some pat2) :
    (isForbidden (analyze_image image_id db cu r now env).1 =
      (cu.role == "patient" && pat.user_id != cu.id)) ∧
    (isForbidden (get_analysis_results image_id db cu) =
      (cu.role == "patient" && pat.user_id != cu.id)) ∧
    (isForbidden (get_healing_history pid db cu) =
      (cu.role == "patient" && pat2.user_id != cu.id)) := by
  refine ⟨?_, ?_, ?_⟩
  · by_cases hc : (cu.role == "patient" && pat.user_id != cu.id) = true
    · simp [analyze_image, himg, hpat, hc, isForbidden_http403]
    · simp only [Bool.not_eq_true] at hc
      simp [analyze_image, himg, hpat, hc, isForbidden_ok]
  · by_cases hrole : (cu.role == "patient") = true
    · by_cases hui : (pat.user_id != cu.id) = true
      · simp [get_analysis_results, himg, hpat, hrole, hui, isForbidden_http403]
      · simp only [Bool.not_eq_true] at hui
        by_cases han : img.analyzed <;>
          simp [get_analysis_results, himg, hpat, hrole, hui, han,
            isForbidden_http400, isForbidden_analysis_result_of]
    · simp only [Bool.not_eq_true] at hrole
      by_cases han : img.analyzed <;>
        simp [get_analysis_results, himg, hrole, han,
          isForbidden_http400, isForbidden_analysis_result_of]
  · by_cases hc : (cu.role == "patient" && pat2.user_id != cu.id) = true
    · simp [get_healing_history, hpat2, hc, isForbidden_http403]
    · simp only [Bool.not_eq_true] at hc
      simp [get_healing_history, hpat2, hc, isForbidden_mapM, isForbidden_mapM_loop]

/-- A requester with the patient role whose id does not own patient `7`. -/
def patient9U : User := { id := 9, role := "patient" }

/-- Claim C5 witness: the amended decision at concrete requesters — the
mismatching patient `9` is denied on all three endpoints. -/
theorem access_checks_only_patient_role_witness :
    (isForbidden (analyze_image 42 dbA patient9U rng0 99 env0).1 =
      (patient9U.role == "patient" && patA.user_id != patient9U.id)) ∧
    (isForbidden (get_analysis_results 42 dbA patient9U) =
      (patient9U.role == "patient" && patA.user_id != patient9U.id)) ∧
    (isForbidden (get_healing_history 7 dbA patient9U) =
      (patient9U.role == "patient" && patA.user_id != patient9U.id)) :=
  access_checks_only_patient_role dbA patient9U rng0 99 env0 42 7 imgA patA patA
    (by simp [dbA, imgA]) (by simp [dbA, imgA, patA]) (by simp [dbA, patA])

/-! ## Claim C6 -/

/-- Claim C6: the writes of `analyze` are atomic.  When the request fails,
the committed store is exactly the input store (no partial write).  When it
succeeds, the single commit performs the three writes together: the
image's outcome fields and `analyzed = true`, and the owning patient's
`current_healing_percentage`, all derived from the same mock outcome. -/
theorem analyze_atomic (image_id : Nat) (db : DB) (cu : User) (r : Rng)
    (now : Nat) (env : Env) :
    ((analyze_image image_id db cu r now env).1.isOk = false →
      (analyze_image image_id db cu r now env).2.1 = db) ∧
    ((analyze_image image_id db cu r now env).1.isOk = true →
      ∃ img pat,
        db.images.find? (fun i => i.id == image_id) = some img ∧
        db.patients.find? (fun p => p.id == img.patient_id) = some pat ∧
        (analyze_image image_id db cu r now env).2.1.images =
          db.images.map (fun im => if im.id == img.id then
            { img with
              healing_percentage := some (mock_ai_analysis img.image_path r).healing_percentage
              , ai_remarks := some (mock_ai_analysis img.image_path r).ai_remarks
              , fracture_classification :=
                  some (mock_ai_analysis img.image_path r).fracture_classification
              , recommended_actions :=
                  some (mock_ai_analysis img.image_path r).recommended_actions
              , analyzed := true } else im) ∧
        (analyze_image image_id db cu r now env).2.1.patients =
          db.patients.map (fun p => if p.id == pat.id then
            { pat with current_healing_percentage :=
                (mock_ai_analysis img.image_path r).healing_percentage } else p)) := by
  cases hf : db.images.find? (fun i => i.id == image_id) with
  | none =>
    constructor
    · intro _
      simp [analyze_image, hf]
    · intro hok
      simp [analyze_image, hf, Except.isOk, Except.toBool] at hok
  | some img =>
    cases hp : db.patients.find? (fun p => p.id == img.patient_id) with
    | none =>
      constructor
      · intro _
        simp [analyze_image, hf, hp]
      · intro hok
        simp [analyze_image, hf, hp, Except.isOk, Except.toBool] at hok
    | some pat =>
      by_cases hc : (cu.role == "patient" && pat.user_id != cu.id) = true
      · constructor
        · intro _
          simp [analyze_image, hf, hp, hc]
        · intro hok
          simp [analyze_image, hf, hp, hc, Except.isOk, Except.toBool] at hok
      · simp only [Bool.not_eq_true] at hc
        constructor
        · intro hok
          simp [analyze_image, hf, hp, hc, Except.isOk, Except.toBool] at hok
        · intro _
          exact ⟨img, pat, rfl, hp, by simp [analyze_image, hf, hp, hc],
            by simp [analyze_image, hf, hp, hc]⟩

/-- Claim C6 witness: on the missing image `999` the store is untouched,
and on the successful analysis of image `5` the three writes appear
together in the committed store. -/
theorem analyze_atomic_witness :
    (analyze_image 999 dbB doctorU rng0 11 env0).2.1 = dbB ∧
    (∃ img pat,
      dbB.images.find? (fun i => i.id == 5) = some img ∧
      dbB.patients.find? (fun p => p.id == img.patient_id) = some pat ∧
      (analyze_image 5 dbB doctorU rng0 11 env0).2.1.images =
        dbB.images.map (fun im => if im.id == img.id then
          { img with
            healing_percentage := some (mock_ai_analysis img.image_path rng0).healing_percentage
            , ai_remarks := some (mock_ai_analysis img.image_path rng0).ai_remarks
            , fracture_classification :=
                some (mock_ai_analysis img.image_path rng0).fracture_classification
            , recommended_actions :=
                some (mock_ai_analysis img.image_path rng0).recommended_actions
            , analyzed := true } else im) ∧
      (analyze_image 5 dbB doctorU rng0 11 env0).2.1.patients =
        dbB.patients.map (fun p => if p.id == pat.id then
          { pat with current_healing_percentage :=
              (mock_ai_analysis img.image_path rng0).healing_percentage } else p)) :=
  ⟨(analyze_atomic 999 dbB doctorU rng0 11 env0).1 rfl,
   (analyze_atomic 5 dbB doctorU rng0 11 env0).2
     (by simp [analyze_image, dbB, imgB, patA, doctorU, Except.isOk, Except.toBool])⟩

/-! ## Claim C7 -/

/-- A markdown-fenced valid JSON response, the shape the parser's docstring
says it handles. -/
def fencedText : String := "```json\n\x7b\"healing_percentage\": 80.0\x7d\n```"

/-- `json.loads` on the strings arising from `fencedText`: it parses the
inner JSON payload and fails (`JSONDecodeError`) on the full fenced text,
which is not valid JSON. -/
def loads7 : String → Option Json := fun s =>
  if s = "\x7b\"healing_percentage\": 80.0\x7d" then
    some (.obj [("healing_percentage", .num 80)])
  else none

/-- Claim C7: on fenced JSON the parser does **not** use the fenced
payload's fields.  The fence pattern of the source regex (six consecutive
backticks) does not match an ordinary ``` fence, direct `json.loads` of
the full text fails, and the degraded fallback (healing `50`,
`"Manual review required"`) is returned instead of the payload's `80.0` —
contradicting the function's own docstring. -/
theorem fenced_json_falls_back :
    hasSixBackticks fencedText = false ∧
    loads7 "\x7b\"healing_percentage\": 80.0\x7d" =
      some (.obj [("healing_percentage", .num 80)]) ∧
    _parse_analysis_response loads7 fencedText = .ok (parse_fallback fencedText) ∧
    (parse_fallback fencedText).healing_percentage = 50 ∧
    (parse_fallback fencedText).fracture_classification = .str "Manual review required" :=
  ⟨rfl, rfl, rfl, rfl, rfl⟩

/-! ## Claim C8 -/

/-- A text containing six consecutive backticks followed by raw prose. -/
def sixBackticksPlus : String := String.mk (sixBackticks ++ (" raw".data))

/-- Claim C8, counterexample: on this JSON-extraction-failure input the
parser raises (`IndexError` from `group(1)`) instead of returning the
degraded outcome. -/
theorem degraded_path_raises_cex :
    _parse_analysis_response (fun _ => none) sixBackticksPlus = .error .indexError := rfl

/-- Claim C8 (amended): for every input without six consecutive backticks
(so the broken fence pattern cannot match) on which JSON parsing of the
whole text fails, the parser returns the degraded outcome: healing `50.0`,
classification `"Manual review required"`, remarks prefixed with an
unparsed-output banner followed by at most the first 800 characters of the
raw text, and the fixed manual-review instruction. -/
theorem parse_failure_yields_degraded
    (loads : String → Option Json) (text : String)
    (hb : hasSixBackticks text = false) (hl : loads text = none) :
    _parse_analysis_response loads text =
      .ok { healing_percentage := 50
          , fracture_classification := .str "Manual review required"
          , ai_remarks := "AI Analysis Output:\n" ++ py_truncate text 800
          , recommended_actions :=
              "• Clinical evaluation recommended\n• Manual review of AI output required" } ∧
    (py_truncate text 800).length ≤ 800 := by
  constructor
  · unfold _parse_analysis_response
    simp only [hb, Bool.false_eq_true, if_false, hl]
    rfl
  · show (String.mk (text.data.take 800)).length ≤ 800
    have hlen : (String.mk (text.data.take 800)).length = (text.data.take 800).length := rfl
    rw [hlen, List.length_take]
    exact min_le_left 800 _

/-- Claim C8 witness: the degraded outcome on plain prose. -/
theorem parse_failure_yields_degraded_witness :
    _parse_analysis_response (fun _ => none) "plain prose, no JSON" =
      .ok { healing_percentage := 50
          , fracture_classification := .str "Manual review required"
          , ai_remarks := "AI Analysis Output:\n" ++ py_truncate "plain prose, no JSON" 800
          , recommended_actions :=
              "• Clinical evaluation recommended\n• Manual review of AI output required" } ∧
    (py_truncate "plain prose, no JSON" 800).length ≤ 800 :=
  parse_failure_yields_degraded (fun _ => none) "plain prose, no JSON" rfl rfl

/-! ## Claim C9 -/

/-- The vision response text of the clamping scenario. -/
def c9text : String := "\x7b\"healing_percentage\": 103.4\x7d"

/-- `json.loads` on the strings arising from `c9text`. -/
def loads9 : String → Option Json := fun s =>
  if s = c9text then some (.obj [("healing_percentage", .num (517/5))]) else none

/-- An unanalyzed image `42` of patient `7` for the clamping scenario. -/
def imgD : HealingImage :=
  { id := 42, patient_id := 7, image_path := "uploads/d.png", upload_date := 4 }

/-- Store for the clamping scenario. -/
def db9 : DB := { images := [imgD], patients := [patA] }

/-- A configured environment whose vision model would answer `103.4`. -/
def env9 : Env :=
  { fs := fun _ => some [0], gemini_api_key := some "key", vision_response := c9text }

/-- Claim C9, counterexample: with the vision model primed to answer valid
JSON with `healing_percentage: 103.4`, analyzing the unanalyzed image `42`
stores the mock's draw (`60.0` here), not the clamped `100.0` — the
endpoint never consults the vision response. -/
theorem analyze_stores_mock_not_clamped_cex :
    env9.vision_response = c9text ∧
    (analyze_image 42 db9 doctorU rng0 8 env9).2.1.images.map
      (fun i => i.healing_percentage) = [some 60] ∧
    (60 : ℚ) ≠ 100 := by
  refine ⟨rfl, ?_, by norm_num⟩
  simp [analyze_image, db9, imgD, patA, doctorU, mock_rng0]

/-- Claim C9 (amended): the clamping itself lives in the Response Parser —
a successfully extracted numeric `healing_percentage` `v` comes back as
`max 0 (min 100 v)` (so `103.4` yields `100.0`) — but the `analyze`
endpoint does not invoke the Vision Client or this parser, so the clamped
value is not what gets stored. -/
theorem parser_clamps_percentage
    (loads : String → Option Json) (text : String) (kvs : List (String × Json))
    (v : ℚ) (res : GeminiResult)
    (hok : _parse_analysis_response loads text = .ok res)
    (hl : loads text = some (.obj kvs))
    (hv : jget kvs "healing_percentage" (.num 50) = .num v) :
    res.healing_percentage = max 0 (min 100 v) := by
  unfold _parse_analysis_response at hok
  by_cases hb : hasSixBackticks text
  · simp [hb] at hok
  · simp only [hb, if_false, Bool.false_eq_true] at hok
    rw [hl] at hok
    simp only [hv, py_float, Bind.bind, Except.bind] at hok
    cases hd : py_slice5
        (jget kvs "detailed_findings" (.arr [.str "Analysis completed"])) with
    | error e => simp [hd] at hok
    | ok findings =>
      cases ha : py_slice5
          (jget kvs "recommended_actions" (.arr [.str "Routine follow-up recommended"])) with
      | error e => simp [hd, ha] at hok
      | ok actions =>
        cases hs : py_upper (jget kvs "severity" (.str "unknown")) with
        | error e => simp [hd, ha, hs] at hok
        | ok severity =>
          simp only [hd, ha, hs, Except.ok.injEq] at hok
          subst hok
          rfl

/-- The outcome the parser produces for the `103.4` response. -/
def c9res : GeminiResult :=
  { healing_percentage := max 0 (min 100 (517/5))
  , fracture_classification := .str "Analysis completed"
  , ai_remarks := "PRIMARY DIAGNOSIS: Assessment completed\n\nSEVERITY: UNKNOWN\n\nKEY FINDINGS:\n• Analysis completed\n\nCLINICAL NOTES:\nNo additional notes"
  , recommended_actions := "• Routine follow-up recommended" }

/-- Claim C9 witness: the parser clamps the concrete `103.4` to `100.0`. -/
theorem parser_clamps_percentage_witness :
    c9res.healing_percentage = max 0 (min 100 (517/5)) ∧
    max 0 (min 100 ((517 : ℚ)/5)) = 100 :=
  ⟨parser_clamps_percentage loads9 c9text [("healing_percentage", .num (517/5))]
      (517/5) c9res rfl rfl rfl,
   by norm_num⟩

/-! ## Claim C10 -/

/-- The columns of an image row that the history view keys on: identity,
owner, upload date. -/
def imgKey (im : HealingImage) : Nat × Nat × Nat := (im.id, im.patient_id, im.upload_date)

/-- The history item rendered from a fully populated analyzed row. -/
def toHistoryItem (img : HealingImage) : AIAnalysisResult :=
  { image_id := img.id
  , ai_remarks := img.ai_remarks.getD ""
  , fracture_classification := img.fracture_classification.getD ""
  , recommended_actions := img.recommended_actions.getD ""
  , analyzed_at := img.upload_date }

/-- An image row whose analysis text fields are all populated. -/
def rowComplete (img : HealingImage) : Prop :=
  img.ai_remarks.isSome ∧ img.fracture_classification.isSome ∧
    img.recommended_actions.isSome

/-- Rendering a complete row succeeds with its history item. -/
theorem analysis_result_of_complete (img : HealingImage) (h : rowComplete img) :
    analysis_result_of img = .ok (toHistoryItem img) := by
  obtain ⟨h1, h2, h3⟩ := h
  rw [Option.isSome_iff_exists] at h1 h2 h3
  obtain ⟨a, ha⟩ := h1
  obtain ⟨b, hb⟩ := h2
  obtain ⟨c, hc⟩ := h3
  simp [analysis_result_of, toHistoryItem, ha, hb, hc]

/-- `mapM` over complete rows renders every row (loop form). -/
theorem mapM_loop_complete (l : List HealingImage) (acc : List AIAnalysisResult)
    (h : ∀ img ∈ l, rowComplete img) :
    List.mapM.loop analysis_result_of l acc =
      .ok (acc.reverse ++ l.map toHistoryItem) := by
  induction l generalizing acc with
  | nil =>
    simp only [List.mapM.loop, List.map_nil, List.append_nil]
    rfl
  | cons hd tl ih =>
    rw [List.mapM.loop, analysis_result_of_complete hd (h hd (by simp))]
    simp only [Bind.bind, Except.bind]
    rw [ih (toHistoryItem hd :: acc) (fun img hm => h img (List.mem_cons_of_mem _ hm))]
    simp

/-- `mapM` over complete rows renders every row. -/
theorem mapM_complete (l : List HealingImage)
    (h : ∀ img ∈ l, rowComplete img) :
    l.mapM analysis_result_of = .ok (l.map toHistoryItem) := by
  have hl := mapM_loop_complete l [] h
  simpa [List.mapM] using hl

/-- Claim C10: for an authorized requester on an existing patient whose
analyzed rows are fully populated, `history` returns exactly the rendered
outcomes of the patient's analyzed images — the sorted projection of the
filter (so unanalyzed images never appear), a permutation of the filtered
rows, in ascending upload-date order — and `analyze` never disturbs the
ids, owners, upload dates or row order the view is built from, so the
result does not depend on when or in which order analyses were performed. -/
theorem history_sorted_complete
    (pid : Nat) (db : DB) (cu : User) (pat : Patient)
    (hpat : db.patients.find? (fun p => p.id == pid) = some pat)
    (hauth : (cu.role == "patient" && pat.user_id != cu.id) = false)
    (hfields : ∀ img ∈ db.images, img.patient_id = pid → img.analyzed = true →
      rowComplete img)
    (hnd : (db.images.map (fun i => i.id)).Nodup) :
    (get_healing_history pid db cu =
      .ok ((List.insertionSort (fun a b => a.upload_date ≤ b.upload_date)
        (db.images.filter (fun i => i.patient_id == pid && i.analyzed))).map
          toHistoryItem)) ∧
    ((List.insertionSort (fun a b => a.upload_date ≤ b.upload_date)
        (db.images.filter (fun i => i.patient_id == pid && i.analyzed))).map
          toHistoryItem).Perm
      ((db.images.filter (fun i => i.patient_id == pid && i.analyzed)).map
        toHistoryItem) ∧
    ((List.insertionSort (fun a b => a.upload_date ≤ b.upload_date)
        (db.images.filter (fun i => i.patient_id == pid && i.analyzed))).map
          toHistoryItem).Pairwise
      (fun a b => a.analyzed_at ≤ b.analyzed_at) ∧
    (∀ (i : Nat) (cu2 : User) (r2 : Rng) (now2 : Nat) (env2 : Env),
      ((analyze_image i db cu2 r2 now2 env2).2.1).images.map imgKey =
        db.images.map imgKey) := by
  refine ⟨?_, ?_, ?_, ?_⟩
  · have hrows : ∀ img ∈ List.insertionSort (fun a b => a.upload_date ≤ b.upload_date)
        (db.images.filter (fun i => i.patient_id == pid && i.analyzed)),
        rowComplete img := by
      intro img hm
      rw [List.mem_insertionSort, List.mem_filter] at hm
      obtain ⟨hmem, hcond⟩ := hm
      have hc : img.patient_id = pid ∧ img.analyzed = true := by
        simpa using hcond
      exact hfields img hmem hc.1 hc.2
    simp only [get_healing_history, hpat, hauth, Bool.false_eq_true, if_false]
    exact mapM_complete _ hrows
  · exact (List.perm_insertionSort _ _).map toHistoryItem
  · haveI : IsTotal HealingImage (fun a b => a.upload_date ≤ b.upload_date) :=
      ⟨fun a b => Nat.le_total _ _⟩
    haveI : IsTrans HealingImage (fun a b => a.upload_date ≤ b.upload_date) :=
      ⟨fun _ _ _ hab hbc => Nat.le_trans hab hbc⟩
    have hs := List.sorted_insertionSort
      (fun (a b : HealingImage) => a.upload_date ≤ b.upload_date)
      (db.images.filter (fun i => i.patient_id == pid && i.analyzed))
    rw [List.pairwise_map]
    exact hs
  · intro i cu2 r2 now2 env2
    cases hf : db.images.find? (fun x => x.id == i) with
    | none => simp [analyze_image, hf]
    | some img =>
      cases hp : db.patients.find? (fun p => p.id == img.patient_id) with
      | none => simp [analyze_image, hf, hp]
      | some pat2 =>
        by_cases hc : (cu2.role == "patient" && pat2.user_id != cu2.id) = true
        · simp [analyze_image, hf, hp, hc]
        · simp only [Bool.not_eq_true] at hc
          have himg : img ∈ db.images := List.mem_of_find?_eq_some hf
          simp only [analyze_image, hf, hp, hc, Bool.false_eq_true, if_false,
            List.map_map]
          apply List.map_congr_left
          intro im hmem
          by_cases hid : (im.id == img.id) = true
          · have hid' : im.id = img.id := by simpa using hid
            have him2 : im = img :=
              List.inj_on_of_nodup_map hnd hmem himg hid'
            subst him2
            simp [imgKey]
          · simp only [Function.comp_apply, hid, Bool.false_eq_true, if_false]

/-- Two analyzed images of patient `7`, stored in reverse date order. -/
def imgE1 : HealingImage :=
  { id := 1, patient_id := 7, image_path := "uploads/e1.png", upload_date := 200
  , healing_percentage := some 70, ai_remarks := some "r1", analyzed := true
  , fracture_classification := some "f1", recommended_actions := some "a1" }

/-- The earlier-uploaded second image. -/
def imgE2 : HealingImage :=
  { id := 2, patient_id := 7, image_path := "uploads/e2.png", upload_date := 100
  , healing_percentage := some 90, ai_remarks := some "r2", analyzed := true
  , fracture_classification := some "f2", recommended_actions := some "a2" }

/-- Store holding the two analyzed images, later upload first. -/
def dbE : DB := { images := [imgE1, imgE2], patients := [patA] }

/-- Claim C10 witness: the theorem at the two-image store, together with the
concrete evaluation — the earlier upload (`T1 = 100`) is listed first even
though it sits second in the store. -/
theorem history_sorted_complete_witness :
    (get_healing_history 7 dbE doctorU =
      .ok ((List.insertionSort (fun a b => a.upload_date ≤ b.upload_date)
        (dbE.images.filter (fun i => i.patient_id == 7 && i.analyzed))).map
          toHistoryItem)) ∧
    ((List.insertionSort (fun a b => a.upload_date ≤ b.upload_date)
        (dbE.images.filter (fun i => i.patient_id == 7 && i.analyzed))).map
          toHistoryItem).Pairwise
      (fun a b => a.analyzed_at ≤ b.analyzed_at) ∧
    get_healing_history 7 dbE doctorU =
      .ok [toHistoryItem imgE2, toHistoryItem imgE1] := by
  have h := history_sorted_complete 7 dbE doctorU patA
    (by simp [dbE, patA])
    (by simp [doctorU])
    (by
      intro img hmem h1 h2
      simp only [dbE, List.mem_cons, List.not_mem_nil, or_false] at hmem
      rcases hmem with h | h <;> subst h <;> simp [imgE1, imgE2, rowComplete])
    (by simp [dbE, imgE1, imgE2])
  refine ⟨h.1, h.2.2.1, ?_⟩
  rw [h.1]
  rfl
